import Mathlib

/-! Verification of the Sortify playlist clustering pipeline
(`app/playlist/[id].tsx`): track ingestion, tag-based vibe features,
k-means clustering and cluster labeling, modelled shallowly in Lean.
JS numbers are modelled as `ℚ` (the arithmetic that occurs is exact);
`Math.log10` is abstracted as a parameter where it appears. -/

namespace Sortify

/-! ## Track ingestion (`fetchPlaylistDetails`) -/

/-- A track object as embedded in a playlist page item.  `id` is `none`
when the upstream JSON carries no id (JS `null`/`undefined`); the empty
string is a separate JS-falsy value. -/
structure SpotifyTrack where
  id : Option String
  type : String
deriving DecidableEq

/-- One element of `tracksData.items`: `track` is `none` when the item
has no embedded track object. -/
structure PlaylistItem where
  track : Option SpotifyTrack
deriving DecidableEq

/-- JS truthiness of the `id` field: `null`/`undefined`/`""` are falsy. -/
def truthyId : Option String → Bool
  | none => false
  | some s => !(s == "")

/-- The validity filter of `fetchPlaylistDetails`: an item passes when it
has a track, the track has a truthy id, and `track.type === "track"`. -/
def isValidItem (it : PlaylistItem) : Bool :=
  match it.track with
  | none => false
  | some t => truthyId t.id && t.type == "track"

/-- Per page: `tracksData.items.filter(...).map(item => item.track)`. -/
def validTracks (items : List PlaylistItem) : List SpotifyTrack :=
  (items.filter isValidItem).filterMap (·.track)

/-- The pagination loop: `allTracks = [...allTracks, ...validTracks]`
page after page, starting from the empty list. -/
def fetchAllTracks (pages : List (List PlaylistItem)) : List SpotifyTrack :=
  pages.foldl (fun acc pg => acc ++ validTracks pg) []

/-! ## k-means (`kMeans`).  The JS `Math.sqrt` in the distance is omitted
and squared distances are compared instead: `sqrt` is strictly monotone on
nonnegative reals, so the argmin (with ties broken by the strict `<`
update, i.e. lowest index) is unchanged. -/

/-- `point.reduce((sum, val, j) => sum + (val - centroid[j])**2, 0)`:
squared Euclidean distance; `centroid[j]` is index access, modelled with
default `0` (all vectors that occur have equal length). -/
def distSq (point centroid : List ℚ) : ℚ :=
  (point.enum.map (fun jv => (jv.2 - centroid.getD jv.1 0) ^ 2)).sum

/-- The `forEach` argmin: `minDistance` starts at `Infinity` (modelled as
`none`), `closestCentroid` starts at `0`, and the strict `<` comparison
keeps the earliest minimiser. -/
def closestAux (point : List ℚ) : List (List ℚ) → ℕ → ℕ → Option ℚ → ℕ
  | [], best, _, _ => best
  | c :: rest, best, i, minD =>
    let d := distSq point c
    match minD with
    | none => closestAux point rest i (i + 1) (some d)
    | some m =>
      if d < m then closestAux point rest i (i + 1) (some d)
      else closestAux point rest best (i + 1) (some m)

/-- Index of the nearest centroid to `point` (0 when there are none). -/
def closestCentroid (point : List ℚ) (centroids : List (List ℚ)) : ℕ :=
  closestAux point centroids 0 0 none

/-- Assignment step: `data.map(point => closest centroid index)`. -/
def assignClusters (data centroids : List (List ℚ)) : List ℕ :=
  data.map (fun p => closestCentroid p centroids)

/-- Update step: a centroid with members becomes the coordinate-wise mean
of its members; a centroid with no members keeps its previous position. -/
def updateCentroids (data : List (List ℚ)) (k dims : ℕ) (clusters : List ℕ)
    (old : List (List ℚ)) : List (List ℚ) :=
  (List.range k).map (fun i =>
    let pts := ((data.zip clusters).filter (fun pc => pc.2 == i)).map (·.1)
    if pts.isEmpty then old.getD i []
    else (List.range dims).map (fun j => (pts.map (fun p => p.getD j 0)).sum / pts.length))

/-- The iteration loop of `kMeans`, instrumented with the final centroids
and a flag telling whether the loop stopped through the convergence check
(`newClusters.every((c, i) => c === clusters[i])`, i.e. list equality)
rather than by exhausting the iteration cap.  On convergence the source
`break`s before updating centroids, so the centroids in force are the ones
the last assignment used. -/
def kMeansLoop (data : List (List ℚ)) (k dims : ℕ) :
    ℕ → List (List ℚ) → List ℕ → List (List ℚ) × List ℕ × Bool
  | 0, cents, clusters => (cents, clusters, false)
  | fuel + 1, cents, clusters =>
    let newClusters := assignClusters data cents
    if newClusters = clusters then (cents, clusters, true)
    else kMeansLoop data k dims fuel (updateCentroids data k dims newClusters cents) newClusters

/-- `kMeans(data, k, maxIterations)` with the random initial centroids
taken as the parameter `init`.  Reading `data[0].length` on an empty array
is a JS runtime error (`undefined.length`), modelled as `none`;
`clusters` starts as `new Array(n).fill(0)`. -/
def kMeansRun (data : List (List ℚ)) (k : ℕ) (init : List (List ℚ))
    (maxIterations : ℕ) : Option (List (List ℚ) × List ℕ × Bool) :=
  match data with
  | [] => none
  | p :: _ =>
    some (kMeansLoop data k p.length maxIterations init (List.replicate data.length 0))

/-- The value the source function actually returns: the assignment only. -/
def kMeans (data : List (List ℚ)) (k : ℕ) (init : List (List ℚ))
    (maxIterations : ℕ) : Option (List ℕ) :=
  (kMeansRun data k init maxIterations).map (fun r => r.2.1)

/-! ## Vibe features (`analyzeTrackVibe` and the `calculate*` helpers).
The `TAG_ANALYSIS` keyword table is transcribed bucket by bucket. -/

def tagEnergyHigh : List String :=
  ["energetic", "upbeat", "dance", "electronic", "punk", "metal", "hardcore",
   "fast", "aggressive", "intense", "powerful", "driving"]

def tagEnergyMedium : List String :=
  ["rock", "pop", "indie", "alternative", "hip hop", "funk", "soul",
   "reggae", "country"]

def tagEnergyLow : List String :=
  ["ambient", "classical", "jazz", "folk", "acoustic", "chill", "downtempo",
   "calm", "peaceful", "relaxing", "soft"]

def tagMoodHappy : List String :=
  ["happy", "uplifting", "positive", "cheerful", "joyful", "fun", "party",
   "celebration", "euphoric", "optimistic"]

def tagMoodSad : List String :=
  ["sad", "melancholy", "depressing", "dark", "emotional", "tragic",
   "lonely", "heartbreak", "blue", "somber"]

def tagEraVintage : List String :=
  ["classic", "oldies", "60s", "70s", "80s", "retro", "vintage", "traditional"]

def tagEraModern : List String :=
  ["contemporary", "new", "recent", "2010s", "2020s", "current", "fresh"]

def tagMainstreamPopular : List String :=
  ["pop", "mainstream", "commercial", "radio", "chart", "hit"]

def tagMainstreamNiche : List String :=
  ["underground", "indie", "experimental", "avant-garde", "alternative", "obscure"]

/-- JS `s.includes(kw)`: substring containment. -/
def jsIncludes (s kw : String) : Bool :=
  kw.isEmpty || (s.splitOn kw).length ≥ 2

/-- A tag object from the metadata service; `name` may be absent. -/
structure LastFmTag where
  name : Option String
deriving DecidableEq

/-- `tag.name?.toLowerCase() || ""`. -/
def tagText (tagObj : LastFmTag) : String :=
  (tagObj.name.map String.toLower).getD ""

/-- Track-level lookup payload: `toptags.tag` list (absent degrades to the
empty list) and the string play-count statistics, parsed to naturals. -/
structure TrackInfo where
  toptags : List LastFmTag
  playcount : Option ℕ
  listeners : Option ℕ
deriving DecidableEq

structure ArtistStats where
  playcount : Option ℕ
  listeners : Option ℕ
deriving DecidableEq

/-- Artist-level lookup payload: `tags.tag` list and `stats`. -/
structure ArtistInfo where
  tags : List LastFmTag
  stats : Option ArtistStats
deriving DecidableEq

/-- `Math.max(0, Math.min(1, x))`. -/
def clamp01 (x : ℚ) : ℚ := max 0 (min 1 x)

/-- `calculateEnergyFromTags`: start 0.5; primary tags give ±0.3/+0.1
(high, else low, else medium); the first ten of all tags give ±0.1. -/
def calculateEnergyFromTags (primaryTags : List String)
    (allTags : List LastFmTag) : ℚ :=
  let s1 := primaryTags.foldl (fun score tag =>
    if tagEnergyHigh.any (jsIncludes tag) then score + 3/10
    else if tagEnergyLow.any (jsIncludes tag) then score - 3/10
    else if tagEnergyMedium.any (jsIncludes tag) then score + 1/10
    else score) (1/2)
  let s2 := (allTags.take 10).foldl (fun score tagObj =>
    let tag := tagText tagObj
    if tagEnergyHigh.any (jsIncludes tag) then score + 1/10
    else if tagEnergyLow.any (jsIncludes tag) then score - 1/10
    else score) s1
  clamp01 s2

def romanticKeywords : List String := ["love", "romantic", "ballad", "tender"]

/-- `calculateMoodFromTags` (the `allTags` argument is accepted but unused
in the source body). -/
def calculateMoodFromTags (primaryTags : List String)
    (_allTags : List LastFmTag) : ℚ :=
  let s1 := primaryTags.foldl (fun score tag =>
    if tagMoodHappy.any (jsIncludes tag) then score + 3/10
    else if tagMoodSad.any (jsIncludes tag) then score - 3/10
    else score) (1/2)
  let s2 :=
    if primaryTags.any (fun tag => romanticKeywords.any (jsIncludes tag))
    then s1 + 2/10 else s1
  clamp01 s2

/-- `calculatePopularity`, with `Math.log10` abstracted as the parameter
`log10` (applied only to `Math.max(count, 1) ≥ 1`).  The source also reads
`trackInfo?.listeners` and `artistInfo?.stats?.playcount` but never uses
them.  `parseInt(x || "0")` on an absent statistic yields 0. -/
def calculatePopularity (log10 : ℕ → ℚ) (trackInfo : Option TrackInfo)
    (artistInfo : Option ArtistInfo) : ℚ :=
  let trackPlaycount := (trackInfo.bind (·.playcount)).getD 0
  let artistListeners := ((artistInfo.bind (·.stats)).bind (·.listeners)).getD 0
  let trackPopularity := min (log10 (max trackPlaycount 1) / 6) 1
  let artistPopularity := min (log10 (max artistListeners 1) / 7) 1
  (trackPopularity + artistPopularity) / 2

/-- Fuel-driven integer base-10 logarithm (structurally recursive so that
proofs can evaluate it). -/
def natLog10Aux : ℕ → ℕ → ℕ
  | 0, _ => 0
  | fuel + 1, n => if n < 10 then 0 else natLog10Aux fuel (n / 10) + 1

/-- A concrete stand-in for `Math.log10` on natural-number play counts,
used to instantiate witness theorems; it agrees with the real `log10`
where the concrete inputs need it (`log10 1 = 0`) and, like it, is
nonnegative. -/
def jsLog10 (n : ℕ) : ℚ := (natLog10Aux n n : ℚ)

/-- `calculateEra`. -/
def calculateEra (tags : List String) (artistInfo : Option ArtistInfo) : ℚ :=
  let s1 :=
    if tags.any (fun tag => tagEraVintage.any (jsIncludes tag))
    then (1/2 : ℚ) - 3/10 else 1/2
  let s2 :=
    if tags.any (fun tag => tagEraModern.any (jsIncludes tag))
    then s1 + 3/10 else s1
  let artistListeners := ((artistInfo.bind (·.stats)).bind (·.listeners)).getD 0
  let s3 := if artistListeners > 1000000 then s2 + 1/10 else s2
  clamp01 s3

/-- `calculateMainstream`. -/
def calculateMainstream (tags : List String) (popularity : ℚ) : ℚ :=
  let s1 := popularity * (6/10)
  let s2 :=
    if tags.any (fun tag => tagMainstreamPopular.any (jsIncludes tag))
    then s1 + 3/10 else s1
  let s3 :=
    if tags.any (fun tag => tagMainstreamNiche.any (jsIncludes tag))
    then s2 - 3/10 else s2
  clamp01 s3

/-- `determineVibeCategory`. -/
def determineVibeCategory (energy mood : ℚ) (tags : List String) : String :=
  if tags.any (fun tag => ["love", "romantic", "ballad"].any (jsIncludes tag)) then
    "romantic"
  else if tags.any (fun tag => ["workout", "gym", "training"].any (jsIncludes tag)) then
    "workout"
  else if tags.any (fun tag => ["ambient", "study", "concentration"].any (jsIncludes tag)) then
    "focus"
  else if tags.any (fun tag => ["experimental", "avant-garde", "weird"].any (jsIncludes tag)) then
    "experimental"
  else if tags.any (fun tag => ["classic", "oldies", "vintage"].any (jsIncludes tag)) then
    "nostalgic"
  else if energy ≥ 7/10 ∧ mood ≥ 6/10 then "party"
  else if energy ≥ 8/10 then "workout"
  else if energy ≤ 4/10 ∧ mood ≥ 5/10 then "chill"
  else if energy ≥ 3/10 ∧ energy ≤ 6/10 ∧ mood ≥ 4/10 ∧ mood ≤ 7/10 then "focus"
  else if mood ≤ 4/10 then "melancholy"
  else if energy ≤ 6/10 ∧ mood ≥ 6/10 then "romantic"
  else "chill"

/-- The feature record built by `analyzeTrackVibe` (JS numbers as `ℚ`). -/
structure VibeFeatures where
  energy : ℚ
  mood : ℚ
  popularity : ℚ
  era : ℚ
  mainstream : ℚ
  vibe_category : String
  primary_tags : List String
deriving DecidableEq

/-- `analyzeTrackVibe` after its two network lookups: the lookup results
are the parameters (`none` models a `null` response), `Math.log10` is the
parameter `log10`.  `trackInfo?.toptags?.tag || []` and
`artistInfo?.tags?.tag || []` feed the tag lists. -/
def analyzeTrackVibe (log10 : ℕ → ℚ) (trackInfo : Option TrackInfo)
    (artistInfo : Option ArtistInfo) : VibeFeatures :=
  let trackTags := (trackInfo.map (·.toptags)).getD []
  let artistTags := (artistInfo.map (·.tags)).getD []
  let allTags := trackTags ++ artistTags
  let primaryTags := ((allTags.take 3).map tagText).filter (fun s => !s.isEmpty)
  let energy := calculateEnergyFromTags primaryTags allTags
  let mood := calculateMoodFromTags primaryTags allTags
  let popularity := calculatePopularity log10 trackInfo artistInfo
  let era := calculateEra primaryTags artistInfo
  let mainstream := calculateMainstream primaryTags popularity
  let vibeCategory := determineVibeCategory energy mood primaryTags
  ⟨energy, mood, popularity, era, mainstream, vibeCategory, primaryTags⟩

/-- The analysis result at the nullable contract type the spec gives the
Tag Client (`FeatureVector` or `null`): the source's declared return type
is the non-nullable `Promise<VibeFeatures>` and its single `return`
statement always delivers a full feature object, so at the contract type
the function is `some ∘ analyzeTrackVibe`. -/
def analyzeTrackVibeResult (log10 : ℕ → ℚ) (ti : Option TrackInfo)
    (ai : Option ArtistInfo) : Option VibeFeatures :=
  some (analyzeTrackVibe log10 ti ai)

/-! ## The clustering stage of `analyzePlaylistVibes` -/

/-- `Math.min(Math.max(2, uniqueVibes.size), 6)`: the `Set` size is the
number of distinct `vibe_category` values. -/
def optimalClusters (vibes : List VibeFeatures) : ℕ :=
  min (max 2 (vibes.map (·.vibe_category)).dedup.length) 6

/-- The feature vector handed to `kMeans`:
`[v.energy, v.mood, v.popularity, v.era, v.mainstream]`. -/
def featuresOf (v : VibeFeatures) : List ℚ :=
  [v.energy, v.mood, v.popularity, v.era, v.mainstream]

/-- The clustering stage: build the feature matrix from the analyzed
vibes and run `kMeans` with the diversity-based cluster count (the random
initial centroids again taken as a parameter). -/
def runVibeClustering (vibes : List VibeFeatures) (init : List (List ℚ)) :
    Option (List ℕ) :=
  kMeans (vibes.map featuresOf) (optimalClusters vibes) init 100

/-! ## Cluster labeling (`getVibeClusterName`) -/

/-- The per-track fields `getVibeClusterName` reads. -/
structure TrackWithVibe where
  vibe : Option VibeFeatures
  cluster : Option ℕ
deriving DecidableEq

/-- `VIBE_CATEGORIES`, reduced to the fields the labeler reads: canonical
category name and its emoji column.  The source file does not store real
emoji: each literal is the Mac-Roman misdecoding of the emoji's UTF-8
bytes (a leading U+F8FF then Latin/punctuation characters, e.g. party is
U+F8FF,ü,é,â — bytes `ef a3 bf c3 bc c3 a9 c3 a2`), transcribed here
verbatim. -/
def VIBE_CATEGORIES : List (String × String) :=
  [("party", "üéâ"), ("workout", "üí™"), ("chill", "üòå"),
   ("focus", "üéØ"), ("melancholy", "üòî"),
   ("romantic", "üíï"), ("nostalgic", "üåÖ"),
   ("experimental", "üé≠")]

/-- One step of building `vibeCounts`: JS object keys keep first-insertion
order, and incrementing an existing key keeps its position. -/
def bumpCount (l : List (String × ℕ)) (key : String) : List (String × ℕ) :=
  if l.any (fun p => p.1 == key) then
    l.map (fun p => if p.1 == key then (p.1, p.2 + 1) else p)
  else l ++ [(key, 1)]

/-- Head of `Object.entries(...).sort(([,a],[,b]) => b - a)`: JS `sort` is
stable, so this is the first entry attaining the maximal count. -/
def firstMax : List (String × ℕ) → Option (String × ℕ)
  | [] => none
  | p :: rest => some (rest.foldl (fun best q => if q.2 > best.2 then q else best) p)

/-- `topVibe.charAt(0).toUpperCase() + topVibe.slice(1)`. -/
def jsCapitalize (s : String) : String :=
  match s.data with
  | [] => ""
  | c :: rest => String.mk (Char.toUpper c :: rest)

/-- `getVibeClusterName(clusterId, tracks)`. -/
def getVibeClusterName (clusterId : ℕ) (tracks : List TrackWithVibe) : String :=
  let clusterTracks := tracks.filter (fun t => t.cluster == some clusterId)
  let vibes := clusterTracks.filterMap (·.vibe)
  if vibes.isEmpty then "üéµ Group " ++ toString (clusterId + 1)
  else
    let vibeCounts := vibes.foldl (fun acc v => bumpCount acc v.vibe_category) []
    let topVibe := ((firstMax vibeCounts).map (·.1)).getD "mixed"
    let avgEnergy := (vibes.map (·.energy)).sum / (vibes.length : ℚ)
    let avgMood := (vibes.map (·.mood)).sum / (vibes.length : ℚ)
    match VIBE_CATEGORIES.find? (fun p => p.1 == topVibe) with
    | some p => p.2 ++ " " ++ jsCapitalize topVibe ++ " Vibes"
    | none =>
      let energyDesc :=
        if avgEnergy ≥ 7/10 then "üî• High Energy"
        else if avgEnergy ≥ 4/10 then "‚ö° Medium Energy"
        else "üòå Chill"
      let moodDesc :=
        if avgMood ≥ 7/10 then "üòÑ Happy"
        else if avgMood ≤ 3/10 then "üòî Melancholy"
        else "üòê Balanced"
      energyDesc ++ " " ++ moodDesc

/-! ## Lemmas about ingestion -/

lemma fetchAllTracks_foldl (pages : List (List PlaylistItem))
    (acc : List SpotifyTrack) :
    pages.foldl (fun a pg => a ++ validTracks pg) acc =
      acc ++ (pages.map validTracks).flatten := by
  induction pages generalizing acc with
  | nil => simp
  | cons pg rest ih => simp [ih, List.append_assoc]

lemma mapValid_flatten (pages : List (List PlaylistItem)) :
    (pages.map validTracks).flatten =
      (pages.flatten.filter isValidItem).filterMap (·.track) := by
  induction pages with
  | nil => rfl
  | cons pg rest ih =>
    simp [List.filter_append, List.filterMap_append, ih, validTracks]

lemma fetchAllTracks_eq (pages : List (List PlaylistItem)) :
    fetchAllTracks pages = (pages.flatten.filter isValidItem).filterMap (·.track) := by
  have h1 : fetchAllTracks pages = (pages.map validTracks).flatten := by
    unfold fetchAllTracks
    rw [fetchAllTracks_foldl]
    simp
  rw [h1, mapValid_flatten]

lemma countP_filterMap {α β : Type} (f : α → Option β) (p : β → Bool)
    (l : List α) :
    (l.filterMap f).countP p = l.countP (fun a => (f a).any p) := by
  induction l with
  | nil => rfl
  | cons a l ih =>
    cases h : f a <;>
      simp [List.filterMap_cons, h, List.countP_cons, ih, Option.any]

/-- C3: an item is excluded from the ingested track list exactly when it
has no embedded track, its track has no truthy (stable) identifier, or
its track's type is not `"track"`; all remaining items survive as a
filter of the concatenated pages, hence in arrival order. -/
theorem ingestion_validity_filter :
    (∀ pages : List (List PlaylistItem),
        fetchAllTracks pages =
          (pages.flatten.filter isValidItem).filterMap (·.track)) ∧
    (∀ it : PlaylistItem, isValidItem it = false ↔
        it.track = none ∨ ∃ t, it.track = some t ∧
          (t.id = none ∨ t.id = some "" ∨ t.type ≠ "track")) := by
  constructor
  · exact fetchAllTracks_eq
  · intro it
    obtain ⟨tr⟩ := it
    cases tr with
    | none => simp [isValidItem]
    | some t =>
      obtain ⟨tid, tty⟩ := t
      cases tid with
      | none => simp [isValidItem, truthyId]
      | some s =>
        by_cases hs : s = ""
        · subst hs
          simp [isValidItem, truthyId]
        · simp [isValidItem, truthyId, hs]

/-- C4(counterexample): a page repeating the same embedded track yields an
ingested list whose identifiers are not pairwise distinct — no
de-duplication happens. -/
theorem ingestion_no_dedup_counterexample :
    ¬ List.Nodup ((fetchAllTracks
        [[⟨some ⟨some "a", "track"⟩⟩, ⟨some ⟨some "a", "track"⟩⟩]]).map
          (·.id)) := by
  decide

/-- C4(amended): ingestion keeps every valid item, duplicates included —
for each identifier, its multiplicity in the ingested list equals the
number of valid page items carrying it. -/
theorem ingestion_keeps_duplicates :
    ∀ (pages : List (List PlaylistItem)) (oid : Option String),
      (fetchAllTracks pages).countP (fun t => t.id == oid) =
        pages.flatten.countP (fun it =>
          isValidItem it && it.track.any (fun t => t.id == oid)) := by
  intro pages oid
  rw [fetchAllTracks_eq, countP_filterMap, List.countP_filter]
  apply List.countP_congr
  intro it _
  simp [Bool.and_comm]

/-! ## Lemmas about k-means -/

lemma closestAux_lt (point : List ℚ) :
    ∀ (cents : List (List ℚ)) (best i : ℕ) (m : Option ℚ) (N : ℕ),
      best < N → i + cents.length ≤ N →
      closestAux point cents best i m < N := by
  intro cents
  induction cents with
  | nil =>
    intro best i m N hb _
    simpa [closestAux] using hb
  | cons c rest ih =>
    intro best i m N hb hi
    simp only [List.length_cons] at hi
    have hi' : i + 1 + rest.length ≤ N := by omega
    have hiN : i < N := by omega
    cases m with
    | none =>
      simpa [closestAux] using ih i (i + 1) (some (distSq point c)) N hiN hi'
    | some mv =>
      by_cases hd : distSq point c < mv
      · simpa [closestAux, hd] using ih i (i + 1) (some (distSq point c)) N hiN hi'
      · simpa [closestAux, hd] using ih best (i + 1) (some mv) N hb hi'

lemma closestCentroid_lt (point : List ℚ) (cents : List (List ℚ))
    (h : cents ≠ []) : closestCentroid point cents < cents.length := by
  have hlen : 0 < cents.length := List.length_pos.mpr h
  exact closestAux_lt point cents 0 0 none cents.length hlen (by omega)

lemma assignClusters_length (data cents : List (List ℚ)) :
    (assignClusters data cents).length = data.length := by
  simp [assignClusters]

lemma assignClusters_lt (data cents : List (List ℚ)) (k : ℕ)
    (hlen : cents.length = k) (hk : 1 ≤ k) :
    ∀ c ∈ assignClusters data cents, c < k := by
  intro c hc
  simp only [assignClusters, List.mem_map] at hc
  obtain ⟨p, _, rfl⟩ := hc
  have hne : cents ≠ [] := by
    intro h
    rw [h] at hlen
    simp at hlen
    omega
  simpa [hlen] using closestCentroid_lt p cents hne

lemma updateCentroids_length (data : List (List ℚ)) (k dims : ℕ)
    (cls : List ℕ) (old : List (List ℚ)) :
    (updateCentroids data k dims cls old).length = k := by
  simp [updateCentroids]

lemma kMeansLoop_invariant (data : List (List ℚ)) (k dims : ℕ) (hk : 1 ≤ k) :
    ∀ (fuel : ℕ) (cents : List (List ℚ)) (clusters : List ℕ),
      cents.length = k → clusters.length = data.length →
      (∀ c ∈ clusters, c < k) →
      (kMeansLoop data k dims fuel cents clusters).2.1.length = data.length ∧
        ∀ c ∈ (kMeansLoop data k dims fuel cents clusters).2.1, c < k := by
  intro fuel
  induction fuel with
  | zero =>
    intro cents clusters _ h2 h3
    exact ⟨h2, h3⟩
  | succ n ih =>
    intro cents clusters h1 h2 h3
    by_cases h : assignClusters data cents = clusters
    · simpa [kMeansLoop, h] using ⟨h2, h3⟩
    · have hstep : kMeansLoop data k dims (n + 1) cents clusters =
          kMeansLoop data k dims n
            (updateCentroids data k dims (assignClusters data cents) cents)
            (assignClusters data cents) := by
        simp [kMeansLoop, h]
      rw [hstep]
      exact ih _ _ (updateCentroids_length data k dims _ cents)
        (assignClusters_length data cents) (assignClusters_lt data cents k h1 hk)

lemma kMeansLoop_length (data : List (List ℚ)) (k dims : ℕ) :
    ∀ (fuel : ℕ) (cents : List (List ℚ)) (clusters : List ℕ),
      clusters.length = data.length →
      (kMeansLoop data k dims fuel cents clusters).2.1.length = data.length := by
  intro fuel
  induction fuel with
  | zero => intro cents clusters h2; exact h2
  | succ n ih =>
    intro cents clusters h2
    by_cases h : assignClusters data cents = clusters
    · simpa [kMeansLoop, h] using h2
    · have hstep : kMeansLoop data k dims (n + 1) cents clusters =
          kMeansLoop data k dims n
            (updateCentroids data k dims (assignClusters data cents) cents)
            (assignClusters data cents) := by
        simp [kMeansLoop, h]
      rw [hstep]
      exact ih _ _ (assignClusters_length data cents)

lemma kMeansLoop_converged (data : List (List ℚ)) (k dims : ℕ) :
    ∀ (fuel : ℕ) (cents : List (List ℚ)) (clusters : List ℕ),
      (kMeansLoop data k dims fuel cents clusters).2.2 = true →
      assignClusters data (kMeansLoop data k dims fuel cents clusters).1 =
        (kMeansLoop data k dims fuel cents clusters).2.1 := by
  intro fuel
  induction fuel with
  | zero =>
    intro cents clusters h
    simp [kMeansLoop] at h
  | succ n ih =>
    intro cents clusters h
    by_cases hc : assignClusters data cents = clusters
    · simp [kMeansLoop, hc]
    · have hstep : kMeansLoop data k dims (n + 1) cents clusters =
          kMeansLoop data k dims n
            (updateCentroids data k dims (assignClusters data cents) cents)
            (assignClusters data cents) := by
        simp [kMeansLoop, hc]
      rw [hstep] at h ⊢
      exact ih _ _ h

/-- C2: a k-means run on nonempty data with the source's cluster count
(`k ≥ 1`, initial centroids of length `k`, as `Array(k)` builds them)
assigns every one of the input vectors exactly one cluster id, and every
assigned id lies in `[0, k)`. -/
theorem kMeans_assignment_complete_and_bounded
    (data : List (List ℚ)) (k : ℕ) (init : List (List ℚ))
    (maxIterations : ℕ) (hdata : data ≠ []) (hk : 1 ≤ k)
    (hinit : init.length = k) :
    ∃ cls, kMeans data k init maxIterations = some cls ∧
      cls.length = data.length ∧ ∀ c ∈ cls, c < k := by
  match data, hdata with
  | p :: rest, _ =>
    refine ⟨_, rfl, ?_⟩
    have hrep : ∀ c ∈ List.replicate (p :: rest).length 0, c < k := by
      intro c hc
      have := List.eq_of_mem_replicate hc
      omega
    exact kMeansLoop_invariant (p :: rest) k p.length hk maxIterations init
      (List.replicate (p :: rest).length 0) hinit (by simp) hrep

/-- C2 witness: a concrete two-point, two-cluster run. -/
theorem kMeans_assignment_complete_and_bounded_witness :
    ∃ cls, kMeans [[0], [1]] 2 [[0], [1]] 100 = some cls ∧
      cls.length = 2 ∧ ∀ c ∈ cls, c < 2 := by
  simpa using kMeans_assignment_complete_and_bounded [[0], [1]] 2 [[0], [1]]
    100 (by simp) (by omega) (by simp)

/-- C7: whenever the loop stops through the convergence check (flag
`true`), re-running the assignment step on the final centroids reproduces
exactly the returned assignment. -/
theorem kMeans_assignment_idempotent_at_convergence
    (data : List (List ℚ)) (k : ℕ) (init : List (List ℚ))
    (maxIterations : ℕ) (cents : List (List ℚ)) (cls : List ℕ)
    (h : kMeansRun data k init maxIterations = some (cents, cls, true)) :
    assignClusters data cents = cls := by
  match data, h with
  | p :: rest, h =>
    simp only [kMeansRun, Option.some.injEq] at h
    have hflag : (kMeansLoop (p :: rest) k p.length maxIterations init
        (List.replicate (p :: rest).length 0)).2.2 = true := by
      rw [h]
    have := kMeansLoop_converged (p :: rest) k p.length maxIterations init
      (List.replicate (p :: rest).length 0) hflag
    rw [h] at this
    exact this

/-- C7 witness: a converging run whose returned assignment the assignment
step reproduces. -/
theorem kMeans_assignment_idempotent_at_convergence_witness :
    assignClusters [[0]] [[0]] = [0] :=
  kMeans_assignment_idempotent_at_convergence [[0]] 1 [[0]] 3
    [[0]] [0] (by decide)

/-- C10: `kMeans` is total exactly on nonempty inputs — every nonempty
vector list yields an assignment of the same length, while the empty list
makes `data[0].length` read the first element of an empty array (a JS
runtime error, modelled as `none`). -/
theorem kMeans_total_iff_nonempty :
    (∀ (data : List (List ℚ)) (k : ℕ) (init : List (List ℚ)) (fuel : ℕ),
        data ≠ [] →
        ∃ cls, kMeans data k init fuel = some cls ∧
          cls.length = data.length) ∧
    (∀ (k : ℕ) (init : List (List ℚ)) (fuel : ℕ),
        kMeans [] k init fuel = none) := by
  constructor
  · intro data k init fuel hdata
    match data, hdata with
    | p :: rest, _ =>
      exact ⟨_, rfl, kMeansLoop_length (p :: rest) k p.length fuel init
        (List.replicate (p :: rest).length 0) (by simp)⟩
  · intro k init fuel
    rfl

/-- C10 witness: a singleton input succeeds with an assignment of length
one; the empty input is undefined. -/
theorem kMeans_total_iff_nonempty_witness :
    (∃ cls, kMeans [[1]] 3 [] 5 = some cls ∧ cls.length = 1) ∧
      kMeans [] 3 [] 5 = none := by
  constructor
  · simpa using kMeans_total_iff_nonempty.1 [[1]] 3 [] 5 (by simp)
  · exact kMeans_total_iff_nonempty.2 3 [] 5

/-! ## Lemmas about the feature bounds -/

lemma clamp01_nonneg (x : ℚ) : 0 ≤ clamp01 x := le_max_left 0 _

lemma clamp01_le_one (x : ℚ) : clamp01 x ≤ 1 := by
  unfold clamp01
  exact max_le (by norm_num) (min_le_left 1 x)

lemma calculateEnergyFromTags_bounds (p : List String) (a : List LastFmTag) :
    0 ≤ calculateEnergyFromTags p a ∧ calculateEnergyFromTags p a ≤ 1 := by
  unfold calculateEnergyFromTags
  exact ⟨clamp01_nonneg _, clamp01_le_one _⟩

lemma calculateMoodFromTags_bounds (p : List String) (a : List LastFmTag) :
    0 ≤ calculateMoodFromTags p a ∧ calculateMoodFromTags p a ≤ 1 := by
  unfold calculateMoodFromTags
  exact ⟨clamp01_nonneg _, clamp01_le_one _⟩

lemma calculateEra_bounds (p : List String) (ai : Option ArtistInfo) :
    0 ≤ calculateEra p ai ∧ calculateEra p ai ≤ 1 := by
  unfold calculateEra
  exact ⟨clamp01_nonneg _, clamp01_le_one _⟩

lemma calculateMainstream_bounds (p : List String) (pop : ℚ) :
    0 ≤ calculateMainstream p pop ∧ calculateMainstream p pop ≤ 1 := by
  unfold calculateMainstream
  exact ⟨clamp01_nonneg _, clamp01_le_one _⟩

lemma calculatePopularity_bounds (log10 : ℕ → ℚ)
    (hlog : ∀ n : ℕ, 1 ≤ n → 0 ≤ log10 n) (ti : Option TrackInfo)
    (ai : Option ArtistInfo) :
    0 ≤ calculatePopularity log10 ti ai ∧ calculatePopularity log10 ti ai ≤ 1 := by
  unfold calculatePopularity
  dsimp only
  have h1 : 0 ≤ log10 (max ((ti.bind (·.playcount)).getD 0) 1) :=
    hlog _ (le_max_right _ _)
  have h2 : 0 ≤ log10 (max (((ai.bind (·.stats)).bind (·.listeners)).getD 0) 1) :=
    hlog _ (le_max_right _ _)
  have t1 : 0 ≤ min (log10 (max ((ti.bind (·.playcount)).getD 0) 1) / 6) 1 :=
    le_min (div_nonneg h1 (by norm_num)) zero_le_one
  have t2 : 0 ≤ min
      (log10 (max (((ai.bind (·.stats)).bind (·.listeners)).getD 0) 1) / 7) 1 :=
    le_min (div_nonneg h2 (by norm_num)) zero_le_one
  have u1 : min (log10 (max ((ti.bind (·.playcount)).getD 0) 1) / 6) 1 ≤ 1 :=
    min_le_right _ _
  have u2 : min
      (log10 (max (((ai.bind (·.stats)).bind (·.listeners)).getD 0) 1) / 7) 1 ≤ 1 :=
    min_le_right _ _
  constructor
  · linarith
  · linarith

/-- C1: every scalar component (energy, mood, popularity, era,
mainstream) of the feature vector produced by the vibe analysis lies in
[0,1], for every lookup outcome — hence for any tag lists, the empty
ones included, and any or absent play-count statistics — assuming only
that `log10` is nonnegative from 1 on, as the real `Math.log10` is. -/
theorem analyzeTrackVibe_components_bounded (log10 : ℕ → ℚ)
    (hlog : ∀ n : ℕ, 1 ≤ n → 0 ≤ log10 n)
    (ti : Option TrackInfo) (ai : Option ArtistInfo) :
    (0 ≤ (analyzeTrackVibe log10 ti ai).energy ∧
      (analyzeTrackVibe log10 ti ai).energy ≤ 1) ∧
    (0 ≤ (analyzeTrackVibe log10 ti ai).mood ∧
      (analyzeTrackVibe log10 ti ai).mood ≤ 1) ∧
    (0 ≤ (analyzeTrackVibe log10 ti ai).popularity ∧
      (analyzeTrackVibe log10 ti ai).popularity ≤ 1) ∧
    (0 ≤ (analyzeTrackVibe log10 ti ai).era ∧
      (analyzeTrackVibe log10 ti ai).era ≤ 1) ∧
    (0 ≤ (analyzeTrackVibe log10 ti ai).mainstream ∧
      (analyzeTrackVibe log10 ti ai).mainstream ≤ 1) := by
  unfold analyzeTrackVibe
  dsimp only
  exact ⟨calculateEnergyFromTags_bounds _ _, calculateMoodFromTags_bounds _ _,
    calculatePopularity_bounds log10 hlog ti ai, calculateEra_bounds _ _,
    calculateMainstream_bounds _ _⟩

/-- C1 witness: the bounds at the concrete instance where both lookups
returned nothing, with the concrete `jsLog10`. -/
theorem analyzeTrackVibe_components_bounded_witness :
    (0 ≤ (analyzeTrackVibe jsLog10 none none).energy ∧
      (analyzeTrackVibe jsLog10 none none).energy ≤ 1) ∧
    (0 ≤ (analyzeTrackVibe jsLog10 none none).mood ∧
      (analyzeTrackVibe jsLog10 none none).mood ≤ 1) ∧
    (0 ≤ (analyzeTrackVibe jsLog10 none none).popularity ∧
      (analyzeTrackVibe jsLog10 none none).popularity ≤ 1) ∧
    (0 ≤ (analyzeTrackVibe jsLog10 none none).era ∧
      (analyzeTrackVibe jsLog10 none none).era ≤ 1) ∧
    (0 ≤ (analyzeTrackVibe jsLog10 none none).mainstream ∧
      (analyzeTrackVibe jsLog10 none none).mainstream ≤ 1) :=
  analyzeTrackVibe_components_bounded jsLog10
    (fun n _ => by unfold jsLog10; exact Nat.cast_nonneg _) none none

/-- The feature vector computed when both lookups return nothing: all
dimensions at their defaults, popularity (and hence mainstream) at 0. -/
lemma analyzeTrackVibe_default_eq :
    analyzeTrackVibe jsLog10 none none =
      ⟨1/2, 1/2, 0, 1/2, 0, "focus", []⟩ := by
  unfold analyzeTrackVibe calculateEnergyFromTags calculateMoodFromTags
    calculatePopularity calculateEra calculateMainstream determineVibeCategory
  norm_num [clamp01, jsLog10, natLog10Aux]

/-- A run of the iteration loop that converges immediately. -/
lemma kMeansLoop_stop (data : List (List ℚ)) (k dims fuel : ℕ)
    (cents : List (List ℚ)) (clusters : List ℕ)
    (h : assignClusters data cents = clusters) :
    kMeansLoop data k dims (fuel + 1) cents clusters = (cents, clusters, true) := by
  simp [kMeansLoop, h]

/-- C8(counterexample): with all statistics absent the popularity
dimension evaluates to 0, not to the neutral 0.5 the claim states
(`log10(max(0,1)) = log10 1 = 0` makes both halves vanish). -/
theorem calculatePopularity_absent_stats_counterexample :
    calculatePopularity jsLog10 none none = 0 ∧
      calculatePopularity jsLog10 none none ≠ 1/2 := by
  constructor <;> norm_num [calculatePopularity, jsLog10, natLog10Aux]

/-- C8(amended): for every track whose statistics are absent at both the
track and the artist level, the popularity dimension equals 0 (the bottom
of the scale), for any `log10` with `log10 1 = 0` as the real one has. -/
theorem calculatePopularity_absent_stats (log10 : ℕ → ℚ)
    (h1 : log10 1 = 0) (ti : Option TrackInfo) (ai : Option ArtistInfo)
    (hti : (ti.bind (·.playcount)).getD 0 = 0)
    (hai : ((ai.bind (·.stats)).bind (·.listeners)).getD 0 = 0) :
    calculatePopularity log10 ti ai = 0 := by
  unfold calculatePopularity
  dsimp only
  rw [hti, hai]
  norm_num [h1]

/-- C8 witness: the amended statement at the concrete no-statistics
instance. -/
theorem calculatePopularity_absent_stats_witness :
    calculatePopularity jsLog10 none none = 0 :=
  calculatePopularity_absent_stats jsLog10 (by decide) none none rfl rfl

/-- C9(counterexample): at the very input the claim says yields `null` —
both lookups empty, no tags at all — the analysis still returns a full
feature vector (the all-defaults one). -/
theorem analyzeTrackVibe_null_counterexample :
    analyzeTrackVibeResult jsLog10 none none ≠ none ∧
      analyzeTrackVibeResult jsLog10 none none =
        some ⟨1/2, 1/2, 0, 1/2, 0, "focus", []⟩ := by
  unfold analyzeTrackVibeResult
  rw [analyzeTrackVibe_default_eq]
  exact ⟨by simp, rfl⟩

/-- C9(amended): the tag-analysis function never returns `null`: for
every pair of lookup outcomes, including both lookups empty, it returns a
feature vector. -/
theorem analyzeTrackVibe_always_vector (log10 : ℕ → ℚ)
    (ti : Option TrackInfo) (ai : Option ArtistInfo) :
    (analyzeTrackVibeResult log10 ti ai).isSome = true := rfl

/-- C5(counterexample): with a single analyzed track the pipeline chooses
`k = min(max(2, 1), 6) = 2 > 1` and nevertheless runs k-means and returns
an assignment — it raises nothing (no `InsufficientDataError` exists in
the code). -/
theorem runVibeClustering_insufficient_data_counterexample :
    [analyzeTrackVibe jsLog10 none none].length <
        optimalClusters [analyzeTrackVibe jsLog10 none none] ∧
      runVibeClustering [analyzeTrackVibe jsLog10 none none]
        [[0, 0, 0, 0, 0], [1, 1, 1, 1, 1]] = some [0] := by
  rw [analyzeTrackVibe_default_eq]
  have h2 : assignClusters [[1/2, 1/2, 0, 1/2, 0]]
      [[0, 0, 0, 0, 0], [1, 1, 1, 1, 1]] = [0] := by
    norm_num [assignClusters, closestCentroid, closestAux, distSq, List.enum]
  have h3 : optimalClusters [⟨1/2, 1/2, 0, 1/2, 0, "focus", []⟩] = 2 := by
    norm_num [optimalClusters, List.dedup]
  constructor
  · rw [h3]
    norm_num
  · unfold runVibeClustering
    rw [h3]
    have hm : List.map featuresOf
        [(⟨1/2, 1/2, 0, 1/2, 0, "focus", []⟩ : VibeFeatures)] =
          [[1/2, 1/2, 0, 1/2, 0]] := rfl
    rw [hm]
    show kMeans [[1/2, 1/2, 0, 1/2, 0]] 2
      [[0, 0, 0, 0, 0], [1, 1, 1, 1, 1]] 100 = some [0]
    have h4 : kMeansLoop [[1/2, 1/2, 0, 1/2, 0]] 2 5 (99 + 1)
        [[0, 0, 0, 0, 0], [1, 1, 1, 1, 1]] [0] =
          ([[0, 0, 0, 0, 0], [1, 1, 1, 1, 1]], [0], true) :=
      kMeansLoop_stop _ _ _ 99 _ _ h2
    unfold kMeans kMeansRun
    dsimp only [List.replicate, List.length]
    rw [h4]
    rfl

/-- C5(amended): the clustering stage performs clustering on every
nonempty analyzed track list and returns an assignment, also when the
track count is below the chosen cluster count; the code defines no
`InsufficientDataError`. -/
theorem runVibeClustering_total (vibes : List VibeFeatures)
    (init : List (List ℚ)) (h : vibes ≠ []) :
    (runVibeClustering vibes init).isSome = true := by
  match vibes, h with
  | v :: rest, _ => rfl

/-- C5 witness: the amended statement at the one-track instance. -/
theorem runVibeClustering_total_witness :
    (runVibeClustering [analyzeTrackVibe jsLog10 none none]
      [[0, 0, 0, 0, 0], [1, 1, 1, 1, 1]]).isSome = true :=
  runVibeClustering_total _ _ (List.cons_ne_nil _ _)

/-! ## Lemmas about labeling -/

lemma string_data_append (s t : String) : (s ++ t).data = s.data ++ t.data := by
  cases s
  cases t
  rfl

lemma left_ne_empty (a c : String) (h : a.data ≠ []) : a ++ c ≠ "" := by
  intro he
  have hd : a.data ++ c.data = ([] : List Char) := by
    have := congrArg String.data he
    rwa [string_data_append] at this
  exact h (List.append_eq_nil.mp hd).1

lemma right_ne_empty (a c : String) (h : c.data ≠ []) : a ++ c ≠ "" := by
  intro he
  have hd : a.data ++ c.data = ([] : List Char) := by
    have := congrArg String.data he
    rwa [string_data_append] at this
  exact h (List.append_eq_nil.mp hd).2

lemma mid_ne_empty (a b c : String) (h : b.data ≠ []) : (a ++ b) ++ c ≠ "" := by
  apply left_ne_empty
  rw [string_data_append]
  intro hh
  exact h (List.append_eq_nil.mp hh).2

/-- C6(counterexample): the label of a memberless cluster is the string
the source literal actually holds — the Mac-Roman misdecoding of the
music-note emoji (U+F8FF,ü,é,µ), a space, then "Group 1" — not the bare
"Group 1" the claim quotes. -/
theorem getVibeClusterName_default_counterexample :
    getVibeClusterName 0 [] ≠ "Group 1" ∧
      getVibeClusterName 0 [] = "üéµ Group 1" := by
  constructor
  · decide
  · decide

/-- C6(amended): the labeler is total — it never yields the empty string
on any cluster id and track list — and a cluster with no analyzed
members gets the default label "üéµ Group {index+1}": the claim's
"Group {index+1}" carries the prefix the source literal stores, the
Mac-Roman misdecoding of the music-note emoji. -/
theorem getVibeClusterName_total (clusterId : ℕ) (tracks : List TrackWithVibe) :
    getVibeClusterName clusterId tracks ≠ "" ∧
      ((tracks.filter (fun t => t.cluster == some clusterId)).filterMap
          (·.vibe) = [] →
        getVibeClusterName clusterId tracks =
          "üéµ Group " ++ toString (clusterId + 1)) := by
  constructor
  · unfold getVibeClusterName
    dsimp only
    split
    · exact left_ne_empty _ _ (by decide)
    · split
      · exact right_ne_empty _ _ (by decide)
      · exact mid_ne_empty _ _ _ (by decide)
  · intro h
    unfold getVibeClusterName
    simp [h]

/-- C6 witness: the default branch at a concrete memberless cluster. -/
theorem getVibeClusterName_total_witness :
    getVibeClusterName 3 [] = "üéµ Group " ++ toString (3 + 1) :=
  (getVibeClusterName_total 3 []).2 rfl

end Sortify
